import Mathlib

/-!
Verification of the KOCSEA passport-image-creator core, shallowly embedded
in Lean 4.

Modelling conventions:
* Images are modelled as a height, a width and a total pixel function
  `Nat → Nat → RGB` (only indices inside the bounds are meaningful); RGB
  channels are natural numbers (bytes in the source).
* Python `float` arithmetic is embedded as exact rational arithmetic `ℚ`.
* Python's builtin `round` (round half to even) is embedded as `pyRound`.
* External collaborators (MediaPipe face mesh, cv2 interpolation kernel,
  rembg, PIL compositing) are passed in as explicit oracle parameters; the
  repository's own wrapping logic around them is embedded faithfully.
* The numpy standard deviation test `15 <= std <= 90` is embedded as the
  equivalent exact comparison `225 <= variance <= 8100` on the variance,
  avoiding square roots.
* Python string formatting of numbers ("%.2f" etc.) is abstracted to
  `toString`; all fixed diagnostic sentences are embedded verbatim.
-/

/-- An RGB pixel: (r, g, b) channel triple. -/
abbrev RGB := Nat × Nat × Nat

/-- In-memory raster image (source: numpy `ndarray` of shape (h, w, 3)). -/
structure Img where
  h : Nat
  w : Nat
  pix : Nat → Nat → RGB

/-- A face landmark in pixel coordinates (source: `LandmarkPx` in
passport_photo.py, a frozen dataclass with float fields). -/
structure LandmarkPx where
  x : ℚ
  y : ℚ

/-- The triple returned by `_detect_face_landmarks`:
(nose_tip, forehead_top, chin). -/
abbrev Landmarks := LandmarkPx × LandmarkPx × LandmarkPx

/-- Python's builtin `round` on a rational: round half to even. -/
def pyRound (q : ℚ) : ℤ :=
  if q - ⌊q⌋ < 1/2 then ⌊q⌋
  else if 1/2 < q - ⌊q⌋ then ⌊q⌋ + 1
  else if ⌊q⌋ % 2 = 0 then ⌊q⌋ else ⌊q⌋ + 1

/-- The left edge of the crop rectangle: `left = int(round(cx - half))`
with `half = size / 2.0` (passport_photo.py line 132). -/
def cropLeft (cx : ℚ) (size : Nat) : ℤ := pyRound (cx - (size : ℚ) / 2)

/-- The top edge of the crop rectangle: `top = int(round(cy - half))`
(passport_photo.py line 133). -/
def cropTop (cy : ℚ) (size : Nat) : ℤ := pyRound (cy - (size : ℚ) / 2)

/-- Pure white, the padding color used by the pipeline. -/
def whiteRGB : RGB := (255, 255, 255)

/-- Source: `_crop_square_with_padding` in passport_photo.py.  Crops a
`size × size` square centered at `(cx, cy)`; regions outside the source
image are filled with `pad`.  The destination assignment
`out[dst_top:dst_bottom, dst_left:dst_right] = img[src_top:src_bottom,
src_left:src_right]` is embedded pointwise. -/
def crop_square_with_padding (img : Img) (cx cy : ℚ) (size : Nat) (pad : RGB) : Img :=
  let left := cropLeft cx size
  let top := cropTop cy size
  let right := left + size
  let bottom := top + size
  let src_left := max 0 left
  let src_top := max 0 top
  let src_right := min (img.w : ℤ) right
  let src_bottom := min (img.h : ℤ) bottom
  if src_right ≤ src_left ∨ src_bottom ≤ src_top then
    ⟨size, size, fun _ _ => pad⟩
  else
    let dst_left := src_left - left
    let dst_top := src_top - top
    let dst_right := dst_left + (src_right - src_left)
    let dst_bottom := dst_top + (src_bottom - src_top)
    ⟨size, size, fun i j =>
      if dst_top ≤ (i : ℤ) ∧ (i : ℤ) < dst_bottom ∧ dst_left ≤ (j : ℤ) ∧ (j : ℤ) < dst_right then
        img.pix (src_top + ((i : ℤ) - dst_top)).toNat (src_left + ((j : ℤ) - dst_left)).toNat
      else pad⟩

/-- An RGBA pixel produced by the background remover: (r, g, b, alpha). -/
abbrev RGBA := Nat × Nat × Nat × Nat

/-- An RGBA raster, the output of the rembg collaborator. -/
structure RGBAImg where
  h : Nat
  w : Nat
  pix : Nat → Nat → RGBA

/-- Errors raised by the generation pipeline (Python `ValueError` /
`RuntimeError` in passport_photo.py). -/
inductive PipelineError where
  | configSize
  | configHeadRatio
  | loadError
  | noFaceDetected
  | inconsistentLandmarks
  | scaleNotPositive
deriving DecidableEq

/-- Raw landmark triple produced by the external MediaPipe face mesh. -/
structure RawLandmarks where
  nose : LandmarkPx
  forehead : LandmarkPx
  chin : LandmarkPx

/-- Source: `_detect_face_landmarks` in passport_photo.py.  The MediaPipe
mesh itself is an external oracle `mesh`; the repository code raises when
no face is found, and performs the sanity check `chin.y <= forehead.y`
(inconsistent landmarks) before returning (nose_tip, forehead_top, chin). -/
def detect_face_landmarks (mesh : Img → Option RawLandmarks) (img : Img) :
    Except PipelineError Landmarks :=
  match mesh img with
  | none => .error .noFaceDetected
  | some l =>
    if l.chin.y ≤ l.forehead.y then .error .inconsistentLandmarks
    else .ok (l.nose, l.forehead, l.chin)

/-- Source: `_resize_bgr` in passport_photo.py.  Raises when
`scale <= 0`; otherwise resizes to
`(max 1 (round (w * scale)), max 1 (round (h * scale)))`.  The Lanczos
interpolation kernel is an external oracle `interp` giving the pixel
content at the new dimensions. -/
def resize_bgr (interp : Img → Nat → Nat → Nat → Nat → RGB) (img : Img)
    (scale : ℚ) : Except PipelineError Img :=
  if scale ≤ 0 then .error .scaleNotPositive
  else
    let new_w := max 1 (pyRound ((img.w : ℚ) * scale)).toNat
    let new_h := max 1 (pyRound ((img.h : ℚ) * scale)).toNat
    .ok ⟨new_h, new_w, fun i j => interp img new_w new_h i j⟩

/-- PIL `Image.alpha_composite` of the RGBA cutout over an opaque white
canvas, followed by `convert("RGB")`: standard over-compositing, a PIL
library operation external to the repository. -/
def compositeOnWhite (cut : RGBAImg) : Img :=
  ⟨cut.h, cut.w, fun i j =>
    let p := cut.pix i j
    let a := p.2.2.2
    ((p.1 * a + 255 * (255 - a)) / 255,
     (p.2.1 * a + 255 * (255 - a)) / 255,
     (p.2.2.1 * a + 255 * (255 - a)) / 255)⟩

/-- Source: `_white_background_with_rembg` in passport_photo.py.  The
rembg collaborator is `remover`: `none` models a failed import of rembg,
and a `.error` result models any exception raised inside the `try` block;
in both cases the input image is returned unchanged.  On success the
cutout is composited onto a white background. -/
def white_background_with_rembg (remover : Option (Img → Except Unit RGBAImg))
    (img : Img) : Img :=
  match remover with
  | none => img
  | some f =>
    match f img with
    | .error _ => img
    | .ok cut => compositeOnWhite cut

/-- Head height on the original image: `chin.y - forehead.y`
(passport_photo.py line 211). -/
def headHeightPx (forehead chin : LandmarkPx) : ℚ := chin.y - forehead.y

/-- The governing scale factor:
`scale = (head_ratio * size) / head_height_px`
(passport_photo.py lines 214-215). -/
def scaleFor (size : Nat) (head_ratio : ℚ) (head_height_px : ℚ) : ℚ :=
  (head_ratio * (size : ℚ)) / head_height_px

/-- Source: `process_passport_photo` in passport_photo.py.  Loading the
input file, the MediaPipe mesh, the cv2 interpolation kernel and the rembg
collaborator are external oracles; saving the output file is omitted (IO).
The parameter range checks precede any use of the oracles. -/
def process_passport_photo (load : Except PipelineError Img)
    (mesh : Img → Option RawLandmarks)
    (interp : Img → Nat → Nat → Nat → Nat → RGB)
    (remover : Option (Img → Except Unit RGBAImg))
    (size : Nat) (head_ratio : ℚ) (remove_background : Bool) :
    Except PipelineError Img :=
  if size < 200 then .error .configSize
  else if ¬ (1/2 ≤ head_ratio ∧ head_ratio ≤ 69/100) then .error .configHeadRatio
  else do
    let pil ← load
    let lms ← detect_face_landmarks mesh pil
    let nose := lms.1
    let forehead := lms.2.1
    let chin := lms.2.2
    let scale := scaleFor size head_ratio (headHeightPx forehead chin)
    let bgr_rs ← resize_bgr interp pil scale
    let cropped := crop_square_with_padding bgr_rs (nose.x * scale) (nose.y * scale) size whiteRGB
    let out := if remove_background then white_background_with_rembg remover cropped else cropped
    .ok out

/-- True exactly when the pipeline failed with one of the two parameter
range errors (the Python `ValueError`s of process_passport_photo). -/
def isConfigError : Except PipelineError Img → Bool
  | .error .configSize => true
  | .error .configHeadRatio => true
  | _ => false

/-- Source: `ProcessingParams` in passportshop/core/models.py, a frozen
dataclass with defaults size=600, head_ratio=0.62, remove_background=True.
The dataclass performs no validation of its own. -/
structure ProcessingParams where
  size : Nat := 600
  head_ratio : ℚ := 62/100
  remove_background : Bool := true

/-- A value in a rule's metrics mapping (Python `dict[str, Any]` values:
ints, floats, None, or a two-element [lo, hi] list). -/
inductive MetricValue where
  | int (n : ℤ)
  | num (q : ℚ)
  | missing
  | range (lo hi : ℚ)

/-- Source: `RuleResult` in passportshop/validation/report.py. -/
structure RuleResult where
  rule_id : String
  passed : Bool
  message : String
  metrics : List (String × MetricValue)

/-- Source: `ValidationReport` in passportshop/validation/report.py. -/
structure ValidationReport where
  passed : Bool
  results : List RuleResult

/-- Count of pixels in the rectangle rows [r0, r1) x cols [c0, c1)
satisfying a predicate. -/
def countRect (img : Img) (r0 r1 c0 c1 : Nat) (p : RGB → Bool) : Nat :=
  ((List.range (r1 - r0)).map (fun i =>
    ((List.range (c1 - c0)).filter (fun j => p (img.pix (r0 + i) (c0 + j)))).length)).sum

/-- Near-white pixel test: every channel at least `thr`. -/
def nearWhite (thr : Nat) (p : RGB) : Bool :=
  decide (thr ≤ p.1) && decide (thr ≤ p.2.1) && decide (thr ≤ p.2.2)

/-- The four numpy border slabs `img[:m]`, `img[h-m:]`, `img[:, :m]`,
`img[:, w-m:]` concatenated (pixels in overlapping slabs are counted once
per slab, as in the source), for an already-clamped band width `m`;
returns the fraction of near-white samples, or 0 for an empty border
(validator.py `_near_white_ratio_border`, after its clamping line). -/
def borderWhiteCount (img : Img) (m thr : Nat) : Nat :=
  countRect img 0 (min m img.h) 0 img.w (nearWhite thr)
  + countRect img (img.h - min m img.h) img.h 0 img.w (nearWhite thr)
  + countRect img 0 img.h 0 (min m img.w) (nearWhite thr)
  + countRect img 0 img.h (img.w - min m img.w) img.w (nearWhite thr)

/-- Number of border samples in the four concatenated slabs. -/
def borderTotal (img : Img) (m : Nat) : Nat :=
  min m img.h * img.w + min m img.h * img.w + img.h * min m img.w + img.h * min m img.w

def nearWhiteRatioBorderBand (img : Img) (m thr : Nat) : ℚ :=
  if borderTotal img m = 0 then 0
  else ((borderWhiteCount img m thr : Nat) : ℚ) / ((borderTotal img m : Nat) : ℚ)

/-- Source: `_near_white_ratio_border` in validator.py.  The requested
margin is clamped by `m = max(1, min(margin, h // 2, w // 2))` before the
border slabs are taken. -/
def near_white_ratio_border (img : Img) (margin thr : Nat) : ℚ :=
  nearWhiteRatioBorderBand img (max 1 (min margin (min (img.h / 2) (img.w / 2)))) thr

/-- Modelled from the spec: the Background whiteness rule as §4.2 words it,
"fraction of near-white pixels (channel ≥ 245/255) across a border band
whose width is max(10, 5% of min(height,width)), sampled from all four
edges" — i.e. the same four-slab sampling but with the stated band width
used directly, without the source's clamp to half of each dimension. -/
def specNearWhiteRatioBorder (img : Img) (thr : Nat) : ℚ :=
  nearWhiteRatioBorderBand img (max 10 ((5 * min img.h img.w) / 100)) thr

/-- BT.709 luma of a pixel: `0.2126 r + 0.7152 g + 0.0722 b`
(validator.py `_lighting_metrics`). -/
def luma (p : RGB) : ℚ :=
  (2126 * (p.1 : ℚ) + 7152 * (p.2.1 : ℚ) + 722 * (p.2.2 : ℚ)) / 10000

/-- Sum of a rational-valued function over all pixels of an image. -/
def sumPix (img : Img) (f : RGB → ℚ) : ℚ :=
  ((List.range img.h).map (fun i =>
    ((List.range img.w).map (fun j => f (img.pix i j))).sum)).sum

/-- Count of pixels of the whole image satisfying a predicate. -/
def countPix (img : Img) (p : RGB → Bool) : Nat :=
  countRect img 0 img.h 0 img.w p

/-- Mean luma over the image (`gray.mean()`); 0 for an empty image. -/
def lumaMean (img : Img) : ℚ :=
  if img.h * img.w = 0 then 0 else sumPix img luma / ((img.h * img.w : Nat) : ℚ)

/-- Population variance of the luma (`gray.std()` squared); 0 for an
empty image. -/
def lumaVar (img : Img) : ℚ :=
  if img.h * img.w = 0 then 0
  else sumPix img (fun p => luma p * luma p) / ((img.h * img.w : Nat) : ℚ)
    - lumaMean img * lumaMean img

/-- Fraction of pixels with luma ≤ 10 (`dark_clip`); 0 for an empty image. -/
def darkClip (img : Img) : ℚ :=
  if img.h * img.w = 0 then 0
  else ((countPix img (fun p => decide (luma p ≤ 10)) : Nat) : ℚ) / ((img.h * img.w : Nat) : ℚ)

/-- Fraction of pixels with luma ≥ 245 (`bright_clip`); 0 for an empty
image. -/
def brightClip (img : Img) : ℚ :=
  if img.h * img.w = 0 then 0
  else ((countPix img (fun p => decide (245 ≤ luma p)) : Nat) : ℚ) / ((img.h * img.w : Nat) : ℚ)

/-- Message of the Size rule (numeric formatting abstracted). -/
def sizeMessage (w h expected : Nat) : String :=
  toString w ++ "x" ++ toString h ++ " pixels (expected " ++ toString expected
    ++ "x" ++ toString expected ++ ")."

/-- Source: the Size rule block of `validate_passport_photo`
(validator.py lines 91-101). -/
def sizeRule (img : Img) (params : ProcessingParams) : RuleResult :=
  let ok := decide (img.w = params.size ∧ img.h = params.size)
  { rule_id := "Size", passed := ok,
    message := sizeMessage img.w img.h params.size,
    metrics := [("width", .int img.w), ("height", .int img.h), ("expected", .int params.size)] }

/-- Clamped head height in pixels: `head_px = max(0.0, chin.y - forehead.y)`
(validator.py line 125). -/
def headPxOf (forehead chin : LandmarkPx) : ℚ := max 0 (chin.y - forehead.y)

/-- Head ratio value: `ratio = head_px / float(H) if H else 0.0`
(validator.py line 126). -/
def headRatioVal (head_px : ℚ) (H : Nat) : ℚ :=
  if H ≠ 0 then head_px / (H : ℚ) else 0

/-- Message of the Head ratio rule (numeric formatting abstracted). -/
def headRatioMessage (q : ℚ) (ok : Bool) : String :=
  toString q ++ " of image height (target 0.50-0.69)."
    ++ (if ok then "" else " Adjust distance to camera or re-take with head sized appropriately.")

/-- Source: the Head ratio rule when landmarks were detected
(validator.py lines 124-139). -/
def headRatioRule (forehead chin : LandmarkPx) (H : Nat) : RuleResult :=
  let head_px := headPxOf forehead chin
  let r := headRatioVal head_px H
  let ok := decide (1/2 ≤ r ∧ r ≤ 69/100)
  { rule_id := "Head ratio", passed := ok,
    message := headRatioMessage r ok,
    metrics := [("head_ratio", .num r), ("head_px", .num head_px), ("range", .range (1/2) (69/100))] }

/-- Source: the Head ratio rule when landmark detection failed
(validator.py lines 115-123). -/
def headRatioFailResult : RuleResult :=
  { rule_id := "Head ratio", passed := false,
    message := "Could not detect face landmarks (needed for head size check).",
    metrics := [("head_ratio", .missing), ("range", .range (1/2) (69/100))] }

/-- Message of the Centering rule (numeric formatting abstracted). -/
def centeringMessage (dx tol : ℚ) (ok : Bool) : String :=
  "Nose offset " ++ toString dx ++ "px (tolerance ±" ++ toString tol ++ "px)."
    ++ (if ok then "" else " Re-center your face (keep nose near the middle).")

/-- Source: the Centering rule when landmarks were detected
(validator.py lines 151-166). -/
def centeringRule (nose : LandmarkPx) (W : Nat) : RuleResult :=
  let center_x : ℚ := (W : ℚ) / 2
  let dx := nose.x - center_x
  let tol : ℚ := 8/100 * (W : ℚ)
  let ok := decide (|dx| ≤ tol)
  { rule_id := "Centering", passed := ok,
    message := centeringMessage dx tol ok,
    metrics := [("nose_x", .num nose.x), ("center_x", .num center_x),
                ("dx_px", .num dx), ("tolerance_px", .num tol)] }

/-- Source: the Centering rule when landmark detection failed
(validator.py lines 142-150). -/
def centeringFailResult (W : Nat) : RuleResult :=
  { rule_id := "Centering", passed := false,
    message := "Could not detect face landmarks (needed for centering check).",
    metrics := [("nose_x", .missing), ("center_x", .num ((W : ℚ) / 2))] }

/-- Message of the Background whiteness rule (numeric formatting
abstracted). -/
def backgroundMessage (q : ℚ) (ok : Bool) : String :=
  "Near-white border pixels: " ++ toString (q * 100) ++ "% (target ≥ 95%)."
    ++ (if ok then "" else " Background may not be white enough.")

/-- Source: the Background whiteness rule block of
`validate_passport_photo` (validator.py lines 168-182):
`margin = max(10, int(0.05 * min(H, W)))` followed by
`_near_white_ratio_border(img_rgb, margin=margin, thr=245)` and the
threshold `white_ratio >= 0.95`. -/
def backgroundRule (img : Img) : RuleResult :=
  let margin := max 10 ((5 * min img.h img.w) / 100)
  let white_ratio := near_white_ratio_border img margin 245
  let ok := decide (19/20 ≤ white_ratio)
  { rule_id := "Background whiteness", passed := ok,
    message := backgroundMessage white_ratio ok,
    metrics := [("white_ratio", .num white_ratio), ("margin_px", .int margin),
                ("threshold", .int 245)] }

/-- Message of the Lighting rule (numeric formatting abstracted). -/
def lightingMessage (mean dark bright : ℚ) (ok : Bool) : String :=
  "Mean " ++ toString mean ++ ", Clip(D/B) " ++ toString (dark * 100) ++ "%/"
    ++ toString (bright * 100) ++ "%."
    ++ (if ok then "" else " Avoid harsh shadows/backlight; use even front lighting.")

/-- Source: the Lighting rule block of `validate_passport_photo`
(validator.py lines 184-207).  The numpy test `15 <= std <= 90` is
embedded as `225 <= variance <= 8100`. -/
def lightingRule (img : Img) : RuleResult :=
  let mean := lumaMean img
  let v := lumaVar img
  let dark := darkClip img
  let bright := brightClip img
  let ok_mean := decide (60 ≤ mean ∧ mean ≤ 210)
  let ok_clip := decide (dark ≤ 2/100) && decide (bright ≤ 2/100)
  let ok_std := decide (225 ≤ v ∧ v ≤ 8100)
  let ok := ok_mean && ok_clip && ok_std
  { rule_id := "Lighting", passed := ok,
    message := lightingMessage mean dark bright ok,
    metrics := [("luma_mean", .num mean), ("luma_var", .num v),
                ("dark_clip", .num dark), ("bright_clip", .num bright)] }

/-- Source: `_get_landmarks` in validator.py.  The detector is modelled as
a supply of successive detection outcomes: each call consumes one entry
(`some` = landmarks returned, `none` = detection failed or raised, both
mapped to Python `None` by `_get_landmarks`); an exhausted supply models
an unavailable detector (`_detect_face_landmarks is None`), which also
yields `None`. -/
def getLandmarksStep (supply : List (Option Landmarks)) :
    Option Landmarks × List (Option Landmarks) :=
  match supply with
  | [] => (none, [])
  | a :: rest => (a, rest)

/-- Source: `validate_passport_photo` in validator.py.  Builds the five
rule results in their fixed order and aggregates `passed` as the
conjunction; returns the report together with the unconsumed detector
supply (so the number of detection attempts is observable). -/
def validate_passport_photo (supply : List (Option Landmarks)) (img : Img)
    (params : ProcessingParams) : ValidationReport × List (Option Landmarks) :=
  let r1 := sizeRule img params
  let step := getLandmarksStep supply
  let r2 := match step.1 with
    | none => headRatioFailResult
    | some lms => headRatioRule lms.2.1 lms.2.2 img.h
  let r3 := match step.1 with
    | none => centeringFailResult img.w
    | some lms => centeringRule lms.1 img.w
  let r4 := backgroundRule img
  let r5 := lightingRule img
  let results := [r1, r2, r3, r4, r5]
  (⟨results.all (fun r => r.passed), results⟩, step.2)

/-- Concrete 4 x 24 image: white everywhere except five black pixels at
row 0, columns 2-6.  Used to separate the source's clamped border band
from the band width the spec states. -/
def imgBorder : Img :=
  ⟨4, 24, fun i j => if i = 0 ∧ 2 ≤ j ∧ j ≤ 6 then (0, 0, 0) else (255, 255, 255)⟩

/-- Concrete 1 x 1 image used to instantiate universally quantified
theorems. -/
def imgOne : Img := ⟨1, 1, fun _ _ => (1, 2, 3)⟩

/-- A trivial loader oracle (used only to instantiate theorems whose
conclusion does not depend on it). -/
def trivLoad : Except PipelineError Img := .error .loadError

/-- A trivial MediaPipe mesh oracle that finds no face. -/
def trivMesh : Img → Option RawLandmarks := fun _ => none

/-- A trivial interpolation oracle. -/
def trivInterp : Img → Nat → Nat → Nat → Nat → RGB := fun _ _ _ _ _ => (0, 0, 0)

/-- A rembg collaborator that always raises. -/
def failRemover : Img → Except Unit RGBAImg := fun _ => .error ()

theorem pyRound_dist (q : ℚ) : |((pyRound q : ℤ) : ℚ) - q| ≤ 1/2 := by
  have h0 : ((⌊q⌋ : ℤ) : ℚ) ≤ q := Int.floor_le q
  have h1 : q < ((⌊q⌋ : ℤ) : ℚ) + 1 := Int.lt_floor_add_one q
  unfold pyRound
  split_ifs with ha hb hc
  all_goals rw [abs_le]; constructor <;> push_cast <;> linarith

theorem pyRound_nearest (q : ℚ) (z : ℤ) :
    |((pyRound q : ℤ) : ℚ) - q| ≤ |((z : ℤ) : ℚ) - q| := by
  by_cases hz : z = pyRound q
  · subst hz; exact le_refl _
  · have hne : z - pyRound q ≠ 0 := sub_ne_zero.mpr hz
    have h1 : (1 : ℚ) ≤ |(z : ℚ) - ((pyRound q : ℤ) : ℚ)| := by
      have h := Int.one_le_abs hne
      have h2 : ((1 : ℤ) : ℚ) ≤ ((|z - pyRound q| : ℤ) : ℚ) := by exact_mod_cast h
      simpa [Int.cast_abs, Int.cast_sub] using h2
    have h2 := pyRound_dist q
    have h3 : |(z : ℚ) - ((pyRound q : ℤ) : ℚ)| ≤
        |(z : ℚ) - q| + |q - ((pyRound q : ℤ) : ℚ)| := abs_sub_le _ _ _
    have h4 : |q - ((pyRound q : ℤ) : ℚ)| = |((pyRound q : ℤ) : ℚ) - q| := abs_sub_comm _ _
    linarith

/-- C1: for every input image, every ProcessingParams and every detector
behavior, `validate_passport_photo` returns a report with exactly 5
RuleResults, in the fixed order Size, Head ratio, Centering, Background
whiteness, Lighting, regardless of which rules pass or fail. -/
theorem validator_report_shape (supply : List (Option Landmarks)) (img : Img)
    (params : ProcessingParams) :
    ((validate_passport_photo supply img params).1).results.length = 5 ∧
    ((validate_passport_photo supply img params).1).results.map (fun r => r.rule_id)
      = ["Size", "Head ratio", "Centering", "Background whiteness", "Lighting"] := by
  rcases supply with _ | ⟨a, rest⟩
  · simp [validate_passport_photo, getLandmarksStep, sizeRule, headRatioFailResult,
      centeringFailResult, backgroundRule, lightingRule]
  · rcases a with _ | lms <;>
      simp [validate_passport_photo, getLandmarksStep, sizeRule, headRatioFailResult,
        centeringFailResult, backgroundRule, lightingRule, headRatioRule, centeringRule]

/-- C2: whenever `size < 200` or `head_ratio` is outside [0.50, 0.69],
`process_passport_photo` returns the corresponding configuration error;
the result is a constant that does not depend on the loader, detector,
interpolation or background-removal oracles, i.e. the failure occurs
before any image loading or landmark-detector work. -/
theorem process_rejects_invalid_params (load : Except PipelineError Img)
    (mesh : Img → Option RawLandmarks)
    (interp : Img → Nat → Nat → Nat → Nat → RGB)
    (remover : Option (Img → Except Unit RGBAImg))
    (size : Nat) (head_ratio : ℚ) (rb : Bool)
    (hbad : size < 200 ∨ ¬ (1/2 ≤ head_ratio ∧ head_ratio ≤ 69/100)) :
    process_passport_photo load mesh interp remover size head_ratio rb
      = .error (if size < 200 then PipelineError.configSize else PipelineError.configHeadRatio) := by
  rcases hbad with h | h
  · rw [process_passport_photo, if_pos h, if_pos h]
  · by_cases hs : size < 200
    · rw [process_passport_photo, if_pos hs, if_pos hs]
    · rw [process_passport_photo, if_neg hs, if_pos h, if_neg hs]

/-- C2 witness: `size=600, head_ratio=0.40` fails immediately with the
head-ratio configuration error, for concrete oracles. -/
theorem process_rejects_invalid_params_witness :
    (600 < 200 ∨ ¬ ((1 : ℚ)/2 ≤ (2 : ℚ)/5 ∧ (2 : ℚ)/5 ≤ (69 : ℚ)/100)) ∧
    process_passport_photo trivLoad trivMesh trivInterp none 600 ((2 : ℚ)/5) true
      = .error (if 600 < 200 then PipelineError.configSize else PipelineError.configHeadRatio) :=
  ⟨Or.inr (by norm_num),
   process_rejects_invalid_params trivLoad trivMesh trivInterp none 600 ((2 : ℚ)/5) true
     (Or.inr (by norm_num))⟩

/-- C3: the square crop always returns an image of exactly size x size
pixels; a pixel whose source coordinate (relative to the rounded crop
rectangle) lies inside the source image is copied from the source, and
every pixel whose source coordinate lies outside the source bounds is
white; in particular a crop rectangle entirely outside the source yields
a uniformly white image and never an error. -/
theorem crop_square_with_padding_spec (img : Img) (cx cy : ℚ) (size i j : Nat)
    (hi : i < size) (hj : j < size) :
    (crop_square_with_padding img cx cy size whiteRGB).h = size ∧
    (crop_square_with_padding img cx cy size whiteRGB).w = size ∧
    ((0 ≤ cropTop cy size + (i : ℤ) ∧ cropTop cy size + (i : ℤ) < (img.h : ℤ) ∧
      0 ≤ cropLeft cx size + (j : ℤ) ∧ cropLeft cx size + (j : ℤ) < (img.w : ℤ)) →
      (crop_square_with_padding img cx cy size whiteRGB).pix i j =
        img.pix (cropTop cy size + (i : ℤ)).toNat (cropLeft cx size + (j : ℤ)).toNat) ∧
    (¬ (0 ≤ cropTop cy size + (i : ℤ) ∧ cropTop cy size + (i : ℤ) < (img.h : ℤ) ∧
        0 ≤ cropLeft cx size + (j : ℤ) ∧ cropLeft cx size + (j : ℤ) < (img.w : ℤ)) →
      (crop_square_with_padding img cx cy size whiteRGB).pix i j = whiteRGB) := by
  set L := cropLeft cx size with hL
  set T := cropTop cy size with hT
  rw [crop_square_with_padding]
  dsimp only
  rw [← hL, ← hT]
  split_ifs with hout
  · refine ⟨rfl, rfl, ?_, fun _ => rfl⟩
    intro hin
    exfalso
    rcases hout with h | h <;> omega
  · refine ⟨rfl, rfl, ?_, ?_⟩
    · intro hin
      have hcond : max 0 T - T ≤ (i : ℤ) ∧
          (i : ℤ) < max 0 T - T + (min (img.h : ℤ) (T + size) - max 0 T) ∧
          max 0 L - L ≤ (j : ℤ) ∧
          (j : ℤ) < max 0 L - L + (min (img.w : ℤ) (L + size) - max 0 L) := by omega
      dsimp only
      rw [if_pos hcond]
      have h1 : max 0 T + ((i : ℤ) - (max 0 T - T)) = T + i := by ring
      have h2 : max 0 L + ((j : ℤ) - (max 0 L - L)) = L + j := by ring
      rw [h1, h2]
    · intro hin
      have hcond : ¬ (max 0 T - T ≤ (i : ℤ) ∧
          (i : ℤ) < max 0 T - T + (min (img.h : ℤ) (T + size) - max 0 T) ∧
          max 0 L - L ≤ (j : ℤ) ∧
          (j : ℤ) < max 0 L - L + (min (img.w : ℤ) (L + size) - max 0 L)) := by omega
      dsimp only
      rw [if_neg hcond]

/-- C3 witness: the crop theorem instantiated on a concrete 1 x 1 image
with a 2 x 2 crop at pixel (0, 0). -/
theorem crop_square_with_padding_spec_witness :
    ((0 : Nat) < 2 ∧ (0 : Nat) < 2) ∧
    ((crop_square_with_padding imgOne (1/2) (1/2) 2 whiteRGB).h = 2 ∧
     (crop_square_with_padding imgOne (1/2) (1/2) 2 whiteRGB).w = 2 ∧
     ((0 ≤ cropTop (1/2) 2 + ((0 : Nat) : ℤ) ∧ cropTop (1/2) 2 + ((0 : Nat) : ℤ) < (imgOne.h : ℤ) ∧
       0 ≤ cropLeft (1/2) 2 + ((0 : Nat) : ℤ) ∧ cropLeft (1/2) 2 + ((0 : Nat) : ℤ) < (imgOne.w : ℤ)) →
       (crop_square_with_padding imgOne (1/2) (1/2) 2 whiteRGB).pix 0 0 =
         imgOne.pix (cropTop (1/2) 2 + ((0 : Nat) : ℤ)).toNat (cropLeft (1/2) 2 + ((0 : Nat) : ℤ)).toNat) ∧
     (¬ (0 ≤ cropTop (1/2) 2 + ((0 : Nat) : ℤ) ∧ cropTop (1/2) 2 + ((0 : Nat) : ℤ) < (imgOne.h : ℤ) ∧
         0 ≤ cropLeft (1/2) 2 + ((0 : Nat) : ℤ) ∧ cropLeft (1/2) 2 + ((0 : Nat) : ℤ) < (imgOne.w : ℤ)) →
       (crop_square_with_padding imgOne (1/2) (1/2) 2 whiteRGB).pix 0 0 = whiteRGB)) :=
  ⟨⟨by decide, by decide⟩,
   crop_square_with_padding_spec imgOne (1/2) (1/2) 2 0 0 (by decide) (by decide)⟩

/-- C4: with landmarks forehead=(x,100) and chin=(x,100+H), H > 0, the
head height measured in the resized coordinate space (chin.y * scale -
forehead.y * scale, with scale = head_ratio * size / head_height_px from
the source) equals head_ratio * size exactly, hence is within 1 pixel of
round(head_ratio * size), independent of the input resolution H. -/
theorem normalize_scale_invariant (x Hh : ℚ) (hH : 0 < Hh) (size : Nat) (head_ratio : ℚ) :
    (100 + Hh) * scaleFor size head_ratio (headHeightPx ⟨x, 100⟩ ⟨x, 100 + Hh⟩)
      - 100 * scaleFor size head_ratio (headHeightPx ⟨x, 100⟩ ⟨x, 100 + Hh⟩)
      = head_ratio * (size : ℚ) ∧
    |head_ratio * (size : ℚ) - ((pyRound (head_ratio * (size : ℚ)) : ℤ) : ℚ)| ≤ 1 := by
  constructor
  · unfold scaleFor headHeightPx
    dsimp only
    have hne : (100 + Hh) - 100 ≠ 0 := by intro h; rw [add_sub_cancel_left] at h; exact hH.ne' h
    field_simp
    ring
  · rw [abs_sub_comm]
    have := pyRound_dist (head_ratio * (size : ℚ))
    linarith

/-- C4 witness: concrete landmarks forehead=(0,100), chin=(0,430) with
default parameters size=600, head_ratio=0.62. -/
theorem normalize_scale_invariant_witness :
    (0 : ℚ) < 330 ∧
    ((100 + 330) * scaleFor 600 ((62 : ℚ)/100) (headHeightPx ⟨0, 100⟩ ⟨0, 100 + 330⟩)
      - 100 * scaleFor 600 ((62 : ℚ)/100) (headHeightPx ⟨0, 100⟩ ⟨0, 100 + 330⟩)
      = (62 : ℚ)/100 * ((600 : Nat) : ℚ) ∧
    |(62 : ℚ)/100 * ((600 : Nat) : ℚ) - ((pyRound ((62 : ℚ)/100 * ((600 : Nat) : ℚ)) : ℤ) : ℚ)| ≤ 1) :=
  ⟨by norm_num, normalize_scale_invariant 0 330 (by norm_num) 600 ((62 : ℚ)/100)⟩

/-- C5: one validation call consumes exactly one entry of the detector
supply (detection is attempted exactly once); when that single attempt
yields nothing (failure, exception, or unavailable detector), the Head
ratio and Centering rules each report passed=false with the explicit
could-not-detect-face-landmarks messages, the other three rules are still
evaluated on the image, and a full five-rule report is returned rather
than an exception being raised. -/
theorem validator_single_detection_attempt (a : Option Landmarks)
    (rest : List (Option Landmarks)) (img : Img) (params : ProcessingParams) :
    (validate_passport_photo (a :: rest) img params).2 = rest ∧
    headRatioFailResult.passed = false ∧
    headRatioFailResult.message
      = "Could not detect face landmarks (needed for head size check)." ∧
    (centeringFailResult img.w).passed = false ∧
    (centeringFailResult img.w).message
      = "Could not detect face landmarks (needed for centering check)." ∧
    validate_passport_photo (none :: rest) img params =
      (⟨false, [sizeRule img params, headRatioFailResult, centeringFailResult img.w,
                backgroundRule img, lightingRule img]⟩, rest) := by
  refine ⟨?_, rfl, rfl, rfl, rfl, ?_⟩
  · simp [validate_passport_photo, getLandmarksStep]
  · simp [validate_passport_photo, getLandmarksStep, headRatioFailResult]

/-- C6: the ProcessingParams value object stores out-of-range values
verbatim at construction (they are never silently clamped into range),
and supplying such values to the processing boundary is rejected with a
configuration error rather than producing any output. -/
theorem params_rejected_not_clamped (s : Nat) (r : ℚ) (b rb : Bool)
    (load : Except PipelineError Img) (mesh : Img → Option RawLandmarks)
    (interp : Img → Nat → Nat → Nat → Nat → RGB)
    (remover : Option (Img → Except Unit RGBAImg))
    (hbad : s < 200 ∨ ¬ (1/2 ≤ r ∧ r ≤ 69/100)) :
    (ProcessingParams.mk s r b).size = s ∧
    (ProcessingParams.mk s r b).head_ratio = r ∧
    (ProcessingParams.mk s r b).remove_background = b ∧
    isConfigError (process_passport_photo load mesh interp remover s r rb) = true := by
  refine ⟨rfl, rfl, rfl, ?_⟩
  rcases hbad with h | h
  · rw [process_passport_photo, if_pos h]
    rfl
  · by_cases hs : s < 200
    · rw [process_passport_photo, if_pos hs]
      rfl
    · rw [process_passport_photo, if_neg hs, if_pos h]
      rfl

/-- C6 witness: size=100 with a valid head ratio is stored verbatim in
the params object and rejected by the processing boundary. -/
theorem params_rejected_not_clamped_witness :
    (100 < 200 ∨ ¬ ((1 : ℚ)/2 ≤ (62 : ℚ)/100 ∧ (62 : ℚ)/100 ≤ (69 : ℚ)/100)) ∧
    ((ProcessingParams.mk 100 ((62 : ℚ)/100) true).size = 100 ∧
     (ProcessingParams.mk 100 ((62 : ℚ)/100) true).head_ratio = (62 : ℚ)/100 ∧
     (ProcessingParams.mk 100 ((62 : ℚ)/100) true).remove_background = true ∧
     isConfigError (process_passport_photo trivLoad trivMesh trivInterp none 100 ((62 : ℚ)/100) true)
       = true) :=
  ⟨Or.inl (by norm_num),
   params_rejected_not_clamped 100 ((62 : ℚ)/100) true true trivLoad trivMesh trivInterp none
     (Or.inl (by norm_num))⟩

/-- C7 counterexample: the claim "the Background whiteness rule passes iff
the near-white fraction over a border band of width
max(10, 5% of min(height, width)) is at least 0.95" fails on the concrete
4 x 24 image `imgBorder`: the rule passes (the source clamps the band
width to max(1, min(margin, h//2, w//2)) = 2, giving fraction
107/112 ≥ 0.95), while the fraction over the band of the stated width 10
is 257/272 < 0.95. -/
theorem background_rule_spec_band_counterexample :
    (backgroundRule imgBorder).passed = true ∧
    specNearWhiteRatioBorder imgBorder 245 < 19/20 := by
  have hm : max 1 (min (max 10 ((5 * min imgBorder.h imgBorder.w) / 100))
      (min (imgBorder.h / 2) (imgBorder.w / 2))) = 2 := rfl
  have hw2 : borderWhiteCount imgBorder 2 245 = 107 := rfl
  have ht2 : borderTotal imgBorder 2 = 112 := rfl
  have hw10 : borderWhiteCount imgBorder 10 245 = 257 := rfl
  have ht10 : borderTotal imgBorder 10 = 272 := rfl
  have hcode : near_white_ratio_border imgBorder
      (max 10 ((5 * min imgBorder.h imgBorder.w) / 100)) 245 = (107 : ℚ) / 112 := by
    unfold near_white_ratio_border
    rw [hm]
    unfold nearWhiteRatioBorderBand
    rw [hw2, ht2]
    norm_num
  have hspec : specNearWhiteRatioBorder imgBorder 245 = (257 : ℚ) / 272 := by
    unfold specNearWhiteRatioBorder
    rw [show max 10 ((5 * min imgBorder.h imgBorder.w) / 100) = 10 from rfl]
    unfold nearWhiteRatioBorderBand
    rw [hw10, ht10]
    norm_num
  constructor
  · unfold backgroundRule
    dsimp only
    rw [hcode, decide_eq_true_eq]
    norm_num
  · rw [hspec]
    norm_num

/-- C7 amended: the Background whiteness rule passes iff the fraction of
near-white pixels (every channel ≥ 245) over the four border slabs is at
least 0.95, where the band width is max(10, ⌊5% of min(height, width)⌋)
additionally clamped to at most half of each image dimension and at least
1, exactly as the source computes it. -/
theorem background_rule_clamped_band (img : Img) :
    (backgroundRule img).passed = true ↔
      19/20 ≤ nearWhiteRatioBorderBand img
        (max 1 (min (max 10 ((5 * min img.h img.w) / 100))
          (min (img.h / 2) (img.w / 2)))) 245 := by
  simp [backgroundRule, near_white_ratio_border]

/-- C8: when the background-removal collaborator is unavailable (the
rembg import failed) or raises, `_white_background_with_rembg` returns
its input image unchanged; the step is a total function, so no exception
propagates into the pipeline. -/
theorem background_removal_degrades_silently (img : Img)
    (remover : Option (Img → Except Unit RGBAImg))
    (hfail : remover = none ∨ ∃ f, remover = some f ∧ ∃ e, f img = .error e) :
    white_background_with_rembg remover img = img := by
  rcases hfail with h | ⟨f, hf, e, he⟩
  · rw [h]; rfl
  · rw [hf]
    unfold white_background_with_rembg
    dsimp only
    rw [he]

/-- C8 witness: a collaborator that raises leaves a concrete image
untouched. -/
theorem background_removal_degrades_silently_witness :
    (some failRemover = none ∨
      ∃ f, some failRemover = some f ∧ ∃ e, f imgOne = Except.error e) ∧
    white_background_with_rembg (some failRemover) imgOne = imgOne :=
  ⟨Or.inr ⟨failRemover, rfl, (), rfl⟩,
   background_removal_degrades_silently imgOne (some failRemover)
     (Or.inr ⟨failRemover, rfl, (), rfl⟩)⟩

/-- C9: the crop rectangle's left and top edges are obtained from the
fractional center by Python's deterministic round-half-to-nearest
rounding (ties broken to the even integer): the rounded edge is within
1/2 of the exact coordinate and at least as close to it as any other
integer, and the crop is a pure function, so repeated runs on identical
input produce identical output. -/
theorem crop_rounding_half_to_nearest (cx cy : ℚ) (size : Nat) (z : ℤ) (img : Img) :
    |((cropLeft cx size : ℤ) : ℚ) - (cx - (size : ℚ) / 2)| ≤ 1/2 ∧
    |((cropLeft cx size : ℤ) : ℚ) - (cx - (size : ℚ) / 2)|
      ≤ |((z : ℤ) : ℚ) - (cx - (size : ℚ) / 2)| ∧
    |((cropTop cy size : ℤ) : ℚ) - (cy - (size : ℚ) / 2)| ≤ 1/2 ∧
    |((cropTop cy size : ℤ) : ℚ) - (cy - (size : ℚ) / 2)|
      ≤ |((z : ℤ) : ℚ) - (cy - (size : ℚ) / 2)| ∧
    crop_square_with_padding img cx cy size whiteRGB
      = crop_square_with_padding img cx cy size whiteRGB := by
  unfold cropLeft cropTop
  exact ⟨pyRound_dist _, pyRound_nearest _ z, pyRound_dist _, pyRound_nearest _ z, rfl⟩

/-- C10: the Head ratio rule is total on degenerate inputs: when
chin.y ≤ forehead.y the head height is clamped to 0 instead of going
negative, when the image height is 0 the ratio is defined as 0 instead of
dividing by zero, and in both cases the rule reports a failed range check
(the pass flag is false) rather than raising an error. -/
theorem head_ratio_rule_degenerate_total (forehead chin : LandmarkPx) (H : Nat)
    (hdeg : chin.y ≤ forehead.y ∨ H = 0) :
    (chin.y ≤ forehead.y → headPxOf forehead chin = 0) ∧
    (H = 0 → headRatioVal (headPxOf forehead chin) H = 0) ∧
    (headRatioRule forehead chin H).passed = false := by
  have hpx : chin.y ≤ forehead.y → headPxOf forehead chin = 0 := by
    intro h
    unfold headPxOf
    exact max_eq_left (sub_nonpos.mpr h)
  have hr : headRatioVal (headPxOf forehead chin) H = 0 := by
    rcases hdeg with h | h
    · unfold headRatioVal
      rw [hpx h]
      split_ifs <;> simp
    · unfold headRatioVal
      simp [h]
  refine ⟨hpx, fun _ => hr, ?_⟩
  unfold headRatioRule
  dsimp only
  rw [hr]
  norm_num

/-- C10 witness: a chin above the forehead on a 600-pixel-high image
yields head height 0, ratio 0, and a failed (not raised) rule. -/
theorem head_ratio_rule_degenerate_total_witness :
    ((LandmarkPx.mk 0 3).y ≤ (LandmarkPx.mk 0 5).y ∨ 600 = 0) ∧
    (((LandmarkPx.mk 0 3).y ≤ (LandmarkPx.mk 0 5).y →
        headPxOf (LandmarkPx.mk 0 5) (LandmarkPx.mk 0 3) = 0) ∧
     (600 = 0 → headRatioVal (headPxOf (LandmarkPx.mk 0 5) (LandmarkPx.mk 0 3)) 600 = 0) ∧
     (headRatioRule (LandmarkPx.mk 0 5) (LandmarkPx.mk 0 3) 600).passed = false) :=
  ⟨Or.inl (by norm_num),
   head_ratio_rule_degenerate_total (LandmarkPx.mk 0 5) (LandmarkPx.mk 0 3) 600
     (Or.inl (by norm_num))⟩
